import Mathlib

/-!
Verification of the scan-orchestration state machine of
`src/widgets/useLivenessDetection.tsx`.

The TypeScript hook is embedded shallowly:
* the reducer state (`LivenessState`) and the reducer (`scanReducer`) are
  translated field by field;
* the mutable refs (`scanStartTimeStamp`, `scanStageStartTimeStamp`,
  `rafID`, `isStopScanSignal`, `remainingAttempts`) become fields of an
  explicit `MachineState`, together with a flag recording whether a
  `scheduleScan` transition timer is pending;
* one execution of the async `startScan` callback (one tick of the driver
  loop) becomes the pure function `startScanTick`, taking the current
  wall-clock time (all `Date.now()` calls of one tick are abstracted to a
  single instant) and the outcome of the awaited validator call as inputs;
  `dispatch` is modelled as immediately applying the reducer, and the
  in-place mutations of `currentStage` are modelled as functional updates
  of `currentActiveStage`;
* emitted callbacks and the scheduling decision of a tick (nothing /
  `requestAnimationFrame` / the `scheduleScan` transition timer) are
  returned alongside the next state;
* JS numbers used as counters are embedded as `Int` (the decrement
  `remainingAttempts.current--` does not saturate), timestamps as `Nat`,
  time differences as `Int`;
* `Math.floor(Math.random() * (i + 1))` in `shuffleArray` is modelled by
  an arbitrary draw function `rand : Nat → Nat` reduced modulo `i + 1`.
-/

inductive ScanStagesViews
  | front
  | left
  | right
  deriving DecidableEq, Repr

inductive ScanStageState
  | completed
  | scanning
  | initial
  deriving DecidableEq, Repr

inductive ScanStageErrorReasons
  | TIMEOUT
  | VALIDATION_ERROR
  deriving DecidableEq, Repr

inductive ScanErrorStates
  | SCAN_TIMEOUT
  | NUMBER_OF_ATTEMPTS_EXCEED
  deriving DecidableEq, Repr

structure ScanStages where
  stage : ScanStagesViews
  stageState : ScanStageState
  isError : Option Bool := none
  error : Option ScanStageErrorReasons := none
  deriving DecidableEq, Repr

inductive ScanState
  | idle
  | scanning
  | error (error : ScanErrorStates)
  | completed
  deriving DecidableEq, Repr

inductive ScanAction
  | START_SCAN
  | STOP_SCAN
  | RESTART_SCAN
  | SCAN_COMPLETED
  | SCAN_ERROR (error : ScanErrorStates)
  | STAGE_COMPLETED
  | STAGE_ERROR (error : ScanStageErrorReasons)
  | SET_TRANSITIONING (isTransitioning : Bool)
  | DECREASE_ATTEMPTS
  deriving DecidableEq, Repr

structure LivenessState where
  scanState : ScanState
  currentActiveStage : ScanStages
  currentAttemptNumber : Int
  isScanActive : Bool
  isTransitioning : Bool
  stages : List ScanStages
  deriving DecidableEq, Repr

def freshStage (v : ScanStagesViews) : ScanStages :=
  { stage := v, stageState := ScanStageState.initial }

def INITIAL_SCAN_STAGES : List ScanStages :=
  [freshStage ScanStagesViews.front, freshStage ScanStagesViews.left,
    freshStage ScanStagesViews.right]

def INITIAL_SCAN_STATE : ScanState := ScanState.idle

/-- One iteration of the Fisher-Yates loop body of `shuffleArray`:
`[newArray[i], newArray[j]] = [newArray[j], newArray[i]]`. Out-of-range
indices leave the list unchanged (never hit by the loop's index range). -/
def listSwap {α : Type _} (l : List α) (i j : Nat) : List α :=
  match l.get? i, l.get? j with
  | some x, some y => (l.set i y).set j x
  | _, _ => l

/-- The loop `for (let i = n - 1; i > 0; i--)` of `shuffleArray`,
parameterised by the random draws: at index `i`, `j = rand i % (i + 1)`
models `Math.floor(Math.random() * (i + 1))`. -/
def fyLoop {α : Type _} (rand : Nat → Nat) : Nat → List α → List α
  | 0, l => l
  | i + 1, l => fyLoop rand i (listSwap l (i + 1) (rand (i + 1) % (i + 2)))

/-- `shuffleArray` (lines 50-57): copies the input and runs the
Fisher-Yates loop from index `length - 1` down to `1`. -/
def shuffleArray {α : Type _} (rand : Nat → Nat) (array : List α) : List α :=
  fyLoop rand (array.length - 1) array

structure Config where
  scanStageTransitionTime : Nat
  scanStageTimeoutTime : Nat
  scanTimeoutTime : Nat
  numberOfAttempts : Int
  deriving DecidableEq, Repr

/-- The reducer `scanReducer` (lines 86-163).  The hook's closure captures
`initialState`, and `STOP_SCAN` / `RESTART_SCAN` call `shuffleArray` at
dispatch time; both are passed in as parameters `init` and `fresh`
(`fresh` stands for the freshly shuffled stage list produced by that
dispatch). -/
def scanReducer (init : LivenessState) (fresh : List ScanStages)
    (state : LivenessState) : ScanAction → LivenessState
  | ScanAction.START_SCAN =>
      { state with scanState := ScanState.scanning, isScanActive := true }
  | ScanAction.STOP_SCAN =>
      { init with stages := fresh }
  | ScanAction.RESTART_SCAN =>
      { init with
        scanState := ScanState.scanning
        isScanActive := true
        currentAttemptNumber := 1
        stages := fresh
        currentActiveStage := fresh.headD init.currentActiveStage }
  | ScanAction.SCAN_COMPLETED =>
      { state with scanState := ScanState.completed, isScanActive := false }
  | ScanAction.SCAN_ERROR e =>
      { state with scanState := ScanState.error e, isScanActive := false }
  | ScanAction.STAGE_COMPLETED =>
      let newStages := state.stages.drop 1
      { state with
        stages := newStages
        currentActiveStage :=
          match newStages.head? with
          | some h => { h with stageState := ScanStageState.initial }
          | none => state.currentActiveStage }
  | ScanAction.STAGE_ERROR e =>
      let updatedStage :=
        { state.currentActiveStage with isError := some true, error := some e }
      { state with
        stages := updatedStage :: state.stages.drop 1
        currentActiveStage := updatedStage
        currentAttemptNumber := state.currentAttemptNumber + 1 }
  | ScanAction.SET_TRANSITIONING b =>
      { state with isTransitioning := b }
  | ScanAction.DECREASE_ATTEMPTS =>
      { state with currentAttemptNumber := state.currentAttemptNumber + 1 }

/-- The mutable refs of the hook (lines 167-171) together with the reducer
state, plus a flag recording that a `scheduleScan` transition timer
(line 200) is pending and has not yet fired or been cleared. -/
structure MachineState where
  st : LivenessState
  scanStartTimeStamp : Option Nat
  scanStageStartTimeStamp : Option Nat
  rafPending : Bool
  isStopScanSignal : Bool
  transitionTimerPending : Bool
  remainingAttempts : Int
  deriving DecidableEq, Repr

/-- Outcome of the awaited `validator()` call: resolved with a boolean, or
rejected (the `catch` branch of lines 293-298). -/
inductive VOutcome
  | ok (b : Bool)
  | rejected
  deriving DecidableEq, Repr

inductive CallbackEvent
  | onScanCompleted
  | onScanError
  | onScanStageError
  | onScanStageCompleted
  deriving DecidableEq, Repr

/-- What a tick leaves scheduled when it returns: nothing (terminal /
stopped), the `requestAnimationFrame(startScan)` of line 301, or the
`setTimeout(..., scanStageTransitionTime)` of `scheduleScan`. -/
inductive Sched
  | noSched
  | raf
  | transitionDelay (ms : Nat)
  deriving DecidableEq, Repr

structure TickResult where
  state : MachineState
  events : List CallbackEvent
  sched : Sched
  deriving DecidableEq, Repr

/-- `cleanUp` (lines 173-179): cancel the pending animation frame and set
the stop signal.  It does NOT touch a pending transition timer. -/
def cleanUp (s : MachineState) : MachineState :=
  { s with rafPending := false, isStopScanSignal := true }

/-- `remainingAttempts.current--` (lines 275, 288, 295): a plain,
non-saturating decrement of the shared attempt budget. -/
def decrementAttempts (s : MachineState) : MachineState :=
  { s with remainingAttempts := s.remainingAttempts - 1 }

/-- `scheduleScan` (lines 197-207): dispatch `SET_TRANSITIONING true` and
start the transition timer.  The timer firing is `transitionTimerFire`
below; the clearTimeout closure it returns is discarded by its caller. -/
def scheduleScan (init : LivenessState) (fresh : List ScanStages)
    (s : MachineState) : MachineState :=
  { s with
    st := scanReducer init fresh s.st (ScanAction.SET_TRANSITIONING true)
    transitionTimerPending := true }

/-- `moveToNextStage` (lines 209-221).  The `state.stages.length <= 1`
test reads the render-time (pre-dispatch) state, so the length is captured
before `STAGE_COMPLETED` is applied. -/
def moveToNextStage (cfg : Config) (init : LivenessState)
    (fresh : List ScanStages) (s : MachineState) : TickResult :=
  let preLen := s.st.stages.length
  let s1 : MachineState :=
    { s with
      st := scanReducer init fresh s.st ScanAction.STAGE_COMPLETED
      scanStageStartTimeStamp := none }
  let s2 := cleanUp s1
  if preLen ≤ 1 then
    { state := { s2 with
      st := scanReducer init fresh s2.st ScanAction.SCAN_COMPLETED }
      events := [CallbackEvent.onScanCompleted]
      sched := Sched.noSched }
  else
    { state := scheduleScan init fresh s2
      events := []
      sched := Sched.transitionDelay cfg.scanStageTransitionTime }

/-- Lines 240-256 of `startScan`: the whole-scan timeout / attempt budget
check.  Returns the terminal result when the session errors out, `none`
when the tick proceeds to the stage phase.  When the budget is exhausted
the error reason is `NUMBER_OF_ATTEMPTS_EXCEED` even if the total scan
timeout is also exceeded. -/
def budgetCheck (cfg : Config) (init : LivenessState)
    (fresh : List ScanStages) (now : Nat) (s : MachineState) :
    Option TickResult :=
  match s.scanStartTimeStamp with
  | none => none
  | some t0 =>
    let timeDiff : Int := (now : Int) - (t0 : Int)
    let isAttemptLimitReached := s.remainingAttempts ≤ 0
    if timeDiff > (cfg.scanTimeoutTime : Int) ∨ isAttemptLimitReached then
      let reason :=
        if isAttemptLimitReached then ScanErrorStates.NUMBER_OF_ATTEMPTS_EXCEED
        else ScanErrorStates.SCAN_TIMEOUT
      some
        { state :=
            { cleanUp s with
              st := scanReducer init fresh s.st (ScanAction.SCAN_ERROR reason) }
          events := [CallbackEvent.onScanError]
          sched := Sched.noSched }
    else none

/-- Lines 258-301 of `startScan`: the per-stage phase of a tick.  The
in-place mutations of `currentStage` become functional updates of
`currentActiveStage`. -/
def stagePhase (cfg : Config) (init : LivenessState)
    (fresh : List ScanStages) (now : Nat) (vres : VOutcome)
    (s : MachineState) : TickResult :=
  let currentStage0 := s.st.currentActiveStage
  let entering := currentStage0.stageState = ScanStageState.initial
  let currentStage :=
    if entering then { currentStage0 with stageState := ScanStageState.scanning }
    else currentStage0
  let s1 : MachineState :=
    if entering then
      { s with
        st := { s.st with currentActiveStage := currentStage }
        scanStageStartTimeStamp := some now }
    else s
  if currentStage.stageState = ScanStageState.scanning then
    let s2 :=
      if s1.scanStageStartTimeStamp = none then
        { s1 with scanStageStartTimeStamp := some now }
      else s1
    let stageTS := s2.scanStageStartTimeStamp.getD now
    let stageTimeDiff : Int := (now : Int) - (stageTS : Int)
    let isStageTimeout := stageTimeDiff > (cfg.scanStageTimeoutTime : Int)
    if isStageTimeout then
      let s3 := decrementAttempts s2
      let s4 : MachineState :=
        { s3 with
          st := scanReducer init fresh s3.st
            (ScanAction.STAGE_ERROR ScanStageErrorReasons.TIMEOUT) }
      let s5 : MachineState :=
        { s4 with st := scanReducer init fresh s4.st ScanAction.DECREASE_ATTEMPTS }
      { state := { s5 with
        rafPending := true }
        events := [CallbackEvent.onScanStageError]
        sched := Sched.raf }
    else
      match vres with
      | VOutcome.ok true =>
        let completedStage :=
          { currentStage with stageState := ScanStageState.completed }
        let s3 : MachineState :=
          { s2 with st := { s2.st with currentActiveStage := completedStage } }
        let r := moveToNextStage cfg init fresh s3
        { r with events := CallbackEvent.onScanStageCompleted :: r.events }
      | VOutcome.ok false =>
        let s3 := decrementAttempts s2
        let s4 : MachineState :=
          { s3 with
            st := scanReducer init fresh s3.st
              (ScanAction.STAGE_ERROR ScanStageErrorReasons.VALIDATION_ERROR) }
        { state := { s4 with
          rafPending := true }
          events := [CallbackEvent.onScanStageError]
          sched := Sched.raf }
      | VOutcome.rejected =>
        let s3 := decrementAttempts s2
        let s4 : MachineState :=
          { s3 with
            st := scanReducer init fresh s3.st
              (ScanAction.STAGE_ERROR ScanStageErrorReasons.VALIDATION_ERROR) }
        { state := { s4 with
          rafPending := true }
          events := [CallbackEvent.onScanStageError]
          sched := Sched.raf }
  else
    { state := { s1 with
      rafPending := true }
      events := []
      sched := Sched.raf }

/-- One full execution of the `startScan` callback (lines 223-302): one
tick of the driver loop, at wall-clock time `now`, with `vres` the outcome
the validator would produce if awaited during this tick. -/
def startScanTick (cfg : Config) (init : LivenessState)
    (fresh : List ScanStages) (now : Nat) (vres : VOutcome)
    (s : MachineState) : TickResult :=
  if s.isStopScanSignal then
    { state := s, events := [], sched := Sched.noSched }
  else
    let s1 : MachineState :=
      if s.scanStartTimeStamp = none then
        { s with
          scanStartTimeStamp := some now
          st := scanReducer init fresh s.st ScanAction.START_SCAN }
      else s
    if s1.st.stages.isEmpty then
      { state := cleanUp
          { s1 with st := scanReducer init fresh s1.st ScanAction.SCAN_COMPLETED }
        events := [CallbackEvent.onScanCompleted]
        sched := Sched.noSched }
    else
      match budgetCheck cfg init fresh now s1 with
      | some r => r
      | none => stagePhase cfg init fresh now vres s1

/-- `stopScan` (lines 304-311). -/
def stopScan (cfg : Config) (init : LivenessState)
    (fresh : List ScanStages) (s : MachineState) :
    MachineState × List CallbackEvent :=
  let s1 := cleanUp s
  let s2 : MachineState :=
    { s1 with st := scanReducer init fresh s1.st ScanAction.STOP_SCAN }
  let s3 : MachineState :=
    { s2 with
      scanStartTimeStamp := none, scanStageStartTimeStamp := none
      remainingAttempts := cfg.numberOfAttempts }
  (s3, [CallbackEvent.onScanError])

/-- The transition timer of `scheduleScan` firing (lines 200-204): it
clears the transitioning flag, RESETS the stop signal to `false`, and runs
a tick.  If no timer is pending nothing happens. -/
def transitionTimerFire (cfg : Config) (init : LivenessState)
    (fresh : List ScanStages) (now : Nat) (vres : VOutcome)
    (s : MachineState) : TickResult :=
  if s.transitionTimerPending then
    let s1 : MachineState :=
      { s with
        transitionTimerPending := false
        st := scanReducer init fresh s.st (ScanAction.SET_TRANSITIONING false)
        isStopScanSignal := false }
    startScanTick cfg init fresh now vres s1
  else
    { state := s, events := [], sched := Sched.noSched }

/-- The machine state at mount: reducer state `st0`, refs as initialised
in lines 167-171. -/
def initialMachine (cfg : Config) (st0 : LivenessState) : MachineState :=
  { st := st0
    scanStartTimeStamp := none
    scanStageStartTimeStamp := none
    rafPending := false
    isStopScanSignal := false
    transitionTimerPending := false
    remainingAttempts := cfg.numberOfAttempts }

/-- `initialState` of the hook (lines 77-84): two independent shuffles,
one for `currentActiveStage`, one for `stages`. -/
def hookInitialState (rand1 rand2 : Nat → Nat) : LivenessState :=
  { scanState := INITIAL_SCAN_STATE
    currentActiveStage :=
      (shuffleArray rand1 INITIAL_SCAN_STAGES).headD (freshStage ScanStagesViews.front)
    currentAttemptNumber := 1
    isScanActive := false
    isTransitioning := false
    stages := shuffleArray rand2 INITIAL_SCAN_STAGES }

/-- Run a sequence of ticks, threading the state and collecting the
emitted callbacks. -/
def runTicks (cfg : Config) (init : LivenessState) (fresh : List ScanStages) :
    List (Nat × VOutcome) → MachineState → MachineState × List CallbackEvent
  | [], s => (s, [])
  | (now, v) :: rest, s =>
    let r := startScanTick cfg init fresh now v s
    let p := runTicks cfg init fresh rest r.state
    (p.1, r.events ++ p.2)

/-- A validator outcome that the code treats as a stage failure: resolved
`false` or rejected. -/
def isFailOutcome : VOutcome → Bool
  | VOutcome.ok b => !b
  | VOutcome.rejected => true

/-! ### Permutation property of `shuffleArray` -/

theorem swapConsPerm {α : Type _} : ∀ (t : List α) (m : Nat) (x y : α),
    t.get? m = some y → (y :: t.set m x).Perm (x :: t)
  | [], m, x, y, h => by simp at h
  | a :: t, 0, x, y, h => by
    rw [List.get?_cons_zero] at h
    injection h with h
    subst h
    simp only [List.set_cons_zero]
    exact List.Perm.swap x a t
  | a :: t, m + 1, x, y, h => by
    rw [List.get?_cons_succ] at h
    have ih := swapConsPerm t m x y h
    simp only [List.set_cons_succ]
    exact (List.Perm.swap a y (t.set m x)).trans ((ih.cons a).trans (List.Perm.swap x a t))

theorem setSetPerm {α : Type _} : ∀ (l : List α) (i j : Nat) (x y : α),
    l.get? i = some x → l.get? j = some y → ((l.set i y).set j x).Perm l
  | [], _, _, _, _, hx, _ => by simp at hx
  | a :: t, 0, 0, x, y, hx, hy => by
    rw [List.get?_cons_zero] at hx hy
    injection hx with hx
    injection hy with hy
    subst hx
    subst hy
    simp only [List.set_cons_zero]
    exact List.Perm.refl _
  | a :: t, 0, j + 1, x, y, hx, hy => by
    rw [List.get?_cons_zero] at hx
    injection hx with hx
    subst hx
    rw [List.get?_cons_succ] at hy
    simp only [List.set_cons_zero, List.set_cons_succ]
    exact swapConsPerm t j a y hy
  | a :: t, i + 1, 0, x, y, hx, hy => by
    rw [List.get?_cons_succ] at hx
    rw [List.get?_cons_zero] at hy
    injection hy with hy
    subst hy
    simp only [List.set_cons_succ, List.set_cons_zero]
    exact swapConsPerm t i a x hx
  | a :: t, i + 1, j + 1, x, y, hx, hy => by
    rw [List.get?_cons_succ] at hx
    rw [List.get?_cons_succ] at hy
    simp only [List.set_cons_succ]
    exact (setSetPerm t i j x y hx hy).cons a

theorem listSwapPerm {α : Type _} (l : List α) (i j : Nat) :
    (listSwap l i j).Perm l := by
  unfold listSwap
  split
  next x y hi hj => exact setSetPerm l i j x y hi hj
  next => exact List.Perm.refl l

theorem fyLoopPerm {α : Type _} (rand : Nat → Nat) :
    ∀ (i : Nat) (l : List α), (fyLoop rand i l).Perm l
  | 0, l => List.Perm.refl l
  | i + 1, l =>
    (fyLoopPerm rand i (listSwap l (i + 1) (rand (i + 1) % (i + 2)))).trans
      (listSwapPerm l (i + 1) (rand (i + 1) % (i + 2)))

/-- C8: `shuffleArray` returns a permutation of its input: the output has
the same multiset of elements (`List.Perm`) and the same length as the
input; being a pure function on an immutable snapshot of the input (the
code copies the array before swapping), the input itself is untouched. -/
theorem C8_shuffleArray_permutation {α : Type _} (rand : Nat → Nat) (array : List α) :
    (shuffleArray rand array).Perm array ∧
    (shuffleArray rand array).length = array.length :=
  ⟨fyLoopPerm rand _ array, (fyLoopPerm rand _ array).length_eq⟩

/-! ### Permutation property of `shuffleArray` (proved above); tick step lemmas -/

theorem tick_active (cfg : Config) (init : LivenessState) (fresh : List ScanStages)
    (now t0 : Nat) (v : VOutcome) (s : MachineState)
    (hstop : s.isStopScanSignal = false)
    (hanchor : s.scanStartTimeStamp = some t0)
    (hne : s.st.stages.isEmpty = false)
    (hT : ¬((now : Int) - (t0 : Int) > (cfg.scanTimeoutTime : Int)))
    (hk : ¬(s.remainingAttempts ≤ 0)) :
    startScanTick cfg init fresh now v s = stagePhase cfg init fresh now v s := by
  unfold startScanTick budgetCheck
  simp [hstop, hanchor, hne, hT, hk]

theorem stage_validation_fail (cfg : Config) (init : LivenessState)
    (fresh : List ScanStages) (now t1 : Nat) (v : VOutcome) (s : MachineState)
    (hv : isFailOutcome v = true)
    (hstage : s.st.currentActiveStage.stageState = ScanStageState.scanning)
    (hts : s.scanStageStartTimeStamp = some t1)
    (hto : ¬((now : Int) - (t1 : Int) > (cfg.scanStageTimeoutTime : Int))) :
    stagePhase cfg init fresh now v s =
      { state := { s with
          st := { s.st with
            currentActiveStage := { s.st.currentActiveStage with
              isError := some true
              error := some ScanStageErrorReasons.VALIDATION_ERROR }
            stages := { s.st.currentActiveStage with
              isError := some true
              error := some ScanStageErrorReasons.VALIDATION_ERROR } :: s.st.stages.drop 1
            currentAttemptNumber := s.st.currentAttemptNumber + 1 }
          rafPending := true
          remainingAttempts := s.remainingAttempts - 1 }
        events := [CallbackEvent.onScanStageError]
        sched := Sched.raf } := by
  rcases v with b | _
  · cases b
    · unfold stagePhase decrementAttempts scanReducer
      simp [hstage, hts, hto]
    · simp [isFailOutcome] at hv
  · unfold stagePhase decrementAttempts scanReducer
    simp [hstage, hts, hto]

theorem stage_timeout_fail (cfg : Config) (init : LivenessState)
    (fresh : List ScanStages) (now t1 : Nat) (v : VOutcome) (s : MachineState)
    (hstage : s.st.currentActiveStage.stageState = ScanStageState.scanning)
    (hts : s.scanStageStartTimeStamp = some t1)
    (hto : (now : Int) - (t1 : Int) > (cfg.scanStageTimeoutTime : Int)) :
    stagePhase cfg init fresh now v s =
      { state := { s with
          st := { s.st with
            currentActiveStage := { s.st.currentActiveStage with
              isError := some true
              error := some ScanStageErrorReasons.TIMEOUT }
            stages := { s.st.currentActiveStage with
              isError := some true
              error := some ScanStageErrorReasons.TIMEOUT } :: s.st.stages.drop 1
            currentAttemptNumber := s.st.currentAttemptNumber + 2 }
          rafPending := true
          remainingAttempts := s.remainingAttempts - 1 }
        events := [CallbackEvent.onScanStageError]
        sched := Sched.raf } := by
  unfold stagePhase decrementAttempts scanReducer
  simp [hstage, hts, hto]
  ring

theorem budget_error (cfg : Config) (init : LivenessState)
    (fresh : List ScanStages) (now t0 : Nat) (v : VOutcome) (s : MachineState)
    (hstop : s.isStopScanSignal = false)
    (hanchor : s.scanStartTimeStamp = some t0)
    (hne : s.st.stages.isEmpty = false)
    (herr : (now : Int) - (t0 : Int) > (cfg.scanTimeoutTime : Int) ∨ s.remainingAttempts ≤ 0) :
    startScanTick cfg init fresh now v s =
      { state := { s with
          st := { s.st with
            scanState := ScanState.error
              (if s.remainingAttempts ≤ 0 then ScanErrorStates.NUMBER_OF_ATTEMPTS_EXCEED
               else ScanErrorStates.SCAN_TIMEOUT)
            isScanActive := false }
          rafPending := false
          isStopScanSignal := true }
        events := [CallbackEvent.onScanError]
        sched := Sched.noSched } := by
  unfold startScanTick budgetCheck cleanUp scanReducer
  simp [hstop, hanchor, hne, herr]

theorem stage_enter_validation_fail (cfg : Config) (init : LivenessState)
    (fresh : List ScanStages) (now : Nat) (v : VOutcome) (s : MachineState)
    (hv : isFailOutcome v = true)
    (hstage : s.st.currentActiveStage.stageState = ScanStageState.initial) :
    stagePhase cfg init fresh now v s =
      { state := { s with
          st := { s.st with
            currentActiveStage := { s.st.currentActiveStage with
              stageState := ScanStageState.scanning
              isError := some true
              error := some ScanStageErrorReasons.VALIDATION_ERROR }
            stages := { s.st.currentActiveStage with
              stageState := ScanStageState.scanning
              isError := some true
              error := some ScanStageErrorReasons.VALIDATION_ERROR } :: s.st.stages.drop 1
            currentAttemptNumber := s.st.currentAttemptNumber + 1 }
          scanStageStartTimeStamp := some now
          rafPending := true
          remainingAttempts := s.remainingAttempts - 1 }
        events := [CallbackEvent.onScanStageError]
        sched := Sched.raf } := by
  have hto : ¬((now : Int) - (now : Int) > (cfg.scanStageTimeoutTime : Int)) := by omega
  rcases v with b | _
  · cases b
    · unfold stagePhase decrementAttempts scanReducer
      simp [hstage, hto]
    · simp [isFailOutcome] at hv
  · unfold stagePhase decrementAttempts scanReducer
    simp [hstage, hto]

theorem move_clears_stage_anchor (cfg : Config) (init : LivenessState)
    (fresh : List ScanStages) (s : MachineState) :
    (moveToNextStage cfg init fresh s).state.scanStageStartTimeStamp = none := by
  by_cases h : s.st.stages.length ≤ 1 <;>
    simp [moveToNextStage, cleanUp, scheduleScan, h]

theorem stage_success_last (cfg : Config) (init : LivenessState)
    (fresh : List ScanStages) (now t1 : Nat) (s : MachineState) (h1 : ScanStages)
    (hstage : s.st.currentActiveStage.stageState = ScanStageState.scanning)
    (hts : s.scanStageStartTimeStamp = some t1)
    (hto : ¬((now : Int) - (t1 : Int) > (cfg.scanStageTimeoutTime : Int)))
    (hstages : s.st.stages = [h1]) :
    stagePhase cfg init fresh now (VOutcome.ok true) s =
      { state := { s with
          st := { s.st with
            scanState := ScanState.completed
            isScanActive := false
            currentActiveStage := { s.st.currentActiveStage with
              stageState := ScanStageState.completed }
            stages := [] }
          scanStageStartTimeStamp := none
          rafPending := false
          isStopScanSignal := true }
        events := [CallbackEvent.onScanStageCompleted, CallbackEvent.onScanCompleted]
        sched := Sched.noSched } := by
  unfold stagePhase moveToNextStage cleanUp scheduleScan scanReducer
  simp [hstage, hts, hto, hstages]

theorem stage_success_advance (cfg : Config) (init : LivenessState)
    (fresh : List ScanStages) (now t1 : Nat) (s : MachineState)
    (h1 h2 : ScanStages) (t : List ScanStages)
    (hstage : s.st.currentActiveStage.stageState = ScanStageState.scanning)
    (hts : s.scanStageStartTimeStamp = some t1)
    (hto : ¬((now : Int) - (t1 : Int) > (cfg.scanStageTimeoutTime : Int)))
    (hstages : s.st.stages = h1 :: h2 :: t) :
    stagePhase cfg init fresh now (VOutcome.ok true) s =
      { state := { s with
          st := { s.st with
            currentActiveStage := { h2 with stageState := ScanStageState.initial }
            stages := h2 :: t
            isTransitioning := true }
          scanStageStartTimeStamp := none
          rafPending := false
          isStopScanSignal := true
          transitionTimerPending := true }
        events := [CallbackEvent.onScanStageCompleted]
        sched := Sched.transitionDelay cfg.scanStageTransitionTime } := by
  unfold stagePhase moveToNextStage cleanUp scheduleScan scanReducer
  simp [hstage, hts, hto, hstages]

theorem tick_anchor (cfg : Config) (init : LivenessState) (fresh : List ScanStages)
    (now : Nat) (v : VOutcome) (s : MachineState)
    (hstop : s.isStopScanSignal = false)
    (hnone : s.scanStartTimeStamp = none) :
    startScanTick cfg init fresh now v s =
      startScanTick cfg init fresh now v
        { s with
          scanStartTimeStamp := some now
          st := scanReducer init fresh s.st ScanAction.START_SCAN } := by
  conv_lhs => unfold startScanTick
  conv_rhs => unfold startScanTick
  simp [hstop, hnone]

theorem first_fail (cfg : Config) (init : LivenessState) (fresh : List ScanStages)
    (t0 : Nat) (v0 : VOutcome) (st0 : LivenessState)
    (hv : isFailOutcome v0 = true)
    (hactive : st0.currentActiveStage.stageState = ScanStageState.initial)
    (hne : st0.stages.isEmpty = false)
    (hk : 1 ≤ cfg.numberOfAttempts) :
    startScanTick cfg init fresh t0 v0 (initialMachine cfg st0) =
      { state :=
          { st := { st0 with
              scanState := ScanState.scanning
              isScanActive := true
              currentActiveStage := { st0.currentActiveStage with
                stageState := ScanStageState.scanning
                isError := some true
                error := some ScanStageErrorReasons.VALIDATION_ERROR }
              stages := { st0.currentActiveStage with
                stageState := ScanStageState.scanning
                isError := some true
                error := some ScanStageErrorReasons.VALIDATION_ERROR } :: st0.stages.drop 1
              currentAttemptNumber := st0.currentAttemptNumber + 1 }
            scanStartTimeStamp := some t0
            scanStageStartTimeStamp := some t0
            rafPending := true
            isStopScanSignal := false
            transitionTimerPending := false
            remainingAttempts := cfg.numberOfAttempts - 1 }
        events := [CallbackEvent.onScanStageError]
        sched := Sched.raf } := by
  have hT : ¬((cfg.scanTimeoutTime : Int) < 0) := by omega
  have hTO : ¬((cfg.scanStageTimeoutTime : Int) < 0) := by omega
  have hk' : ¬(cfg.numberOfAttempts ≤ 0) := by omega
  rcases v0 with b | _
  · cases b
    · unfold startScanTick initialMachine budgetCheck stagePhase decrementAttempts scanReducer
      simp [hactive, hne, hT, hTO, hk']
    · simp [isFailOutcome] at hv
  · unfold startScanTick initialMachine budgetCheck stagePhase decrementAttempts scanReducer
    simp [hactive, hne, hT, hTO, hk']

/-- Shape of the machine state after `i ≥ 1` consecutive failing ticks of
a session that started (and entered its first stage) at time `t0` with
active stage `A` and queued tail `rest`: still scanning, both anchors at
`t0`, `k` attempts left, active stage marked errored and aliased with the
head of the queue. -/
structure FailShape (cfg : Config) (t0 : Nat) (A : ScanStages)
    (rest : List ScanStages) (k : Int) (s : MachineState) : Prop where
  hstop : s.isStopScanSignal = false
  hanchor : s.scanStartTimeStamp = some t0
  hstageTS : s.scanStageStartTimeStamp = some t0
  hstatus : s.st.scanState = ScanState.scanning
  hrem : s.remainingAttempts = k
  herr : ∃ r, s.st.currentActiveStage =
    { stage := A.stage
      stageState := ScanStageState.scanning
      isError := some true
      error := some r }
  hstages : s.st.stages = s.st.currentActiveStage :: rest

theorem fail_step (cfg : Config) (init : LivenessState) (fresh : List ScanStages)
    (t0 : Nat) (A : ScanStages) (rest : List ScanStages) (k : Int)
    (s : MachineState) (hS : FailShape cfg t0 A rest k s)
    (now : Nat) (v : VOutcome) (hk : 1 ≤ k)
    (hT : ¬((now : Int) - (t0 : Int) > (cfg.scanTimeoutTime : Int)))
    (hfail : isFailOutcome v = true ∨
      (now : Int) - (t0 : Int) > (cfg.scanStageTimeoutTime : Int)) :
    FailShape cfg t0 A rest (k - 1) (startScanTick cfg init fresh now v s).state ∧
    (startScanTick cfg init fresh now v s).events = [CallbackEvent.onScanStageError] ∧
    (startScanTick cfg init fresh now v s).sched = Sched.raf ∧
    ((isFailOutcome v = true ∧
        ¬((now : Int) - (t0 : Int) > (cfg.scanStageTimeoutTime : Int))) →
      (startScanTick cfg init fresh now v s).state.st.currentActiveStage.error
        = some ScanStageErrorReasons.VALIDATION_ERROR) := by
  obtain ⟨hstop, hanchor, hts, hstatus, hrem, ⟨r, hact⟩, hstages⟩ := hS
  have hne : s.st.stages.isEmpty = false := by rw [hstages]; rfl
  have hk' : ¬(s.remainingAttempts ≤ 0) := by rw [hrem]; omega
  have hstage : s.st.currentActiveStage.stageState = ScanStageState.scanning := by
    rw [hact]
  rw [tick_active cfg init fresh now t0 v s hstop hanchor hne hT hk']
  by_cases hto : (now : Int) - (t0 : Int) > (cfg.scanStageTimeoutTime : Int)
  · rw [stage_timeout_fail cfg init fresh now t0 v s hstage hts hto]
    refine ⟨⟨hstop, hanchor, hts, hstatus, by rw [hrem],
      ⟨ScanStageErrorReasons.TIMEOUT, by rw [hact]⟩, ?_⟩, rfl, rfl, ?_⟩
    · rw [hstages]
      rfl
    · intro h
      exact absurd hto h.2
  · rcases hfail with hv | hto2
    · rw [stage_validation_fail cfg init fresh now t0 v s hv hstage hts hto]
      refine ⟨⟨hstop, hanchor, hts, hstatus, by rw [hrem],
        ⟨ScanStageErrorReasons.VALIDATION_ERROR, by rw [hact]⟩, ?_⟩, rfl, rfl, ?_⟩
      · rw [hstages]
        rfl
      · intro _
        rfl
    · exact absurd hto2 hto

theorem run_fail (cfg : Config) (init : LivenessState) (fresh : List ScanStages)
    (t0 : Nat) (A : ScanStages) (rest : List ScanStages) :
    ∀ (inputs : List (Nat × VOutcome)) (k : Int) (s : MachineState),
      FailShape cfg t0 A rest k s →
      (inputs.length : Int) ≤ k →
      (∀ p ∈ inputs,
        ¬((p.1 : Int) - (t0 : Int) > (cfg.scanTimeoutTime : Int)) ∧
        (isFailOutcome p.2 = true ∨
          (p.1 : Int) - (t0 : Int) > (cfg.scanStageTimeoutTime : Int))) →
      FailShape cfg t0 A rest (k - inputs.length) (runTicks cfg init fresh inputs s).1 ∧
      (runTicks cfg init fresh inputs s).2
        = List.replicate inputs.length CallbackEvent.onScanStageError ∧
      (inputs ≠ [] →
        (∀ p ∈ inputs, isFailOutcome p.2 = true ∧
          ¬((p.1 : Int) - (t0 : Int) > (cfg.scanStageTimeoutTime : Int))) →
        (runTicks cfg init fresh inputs s).1.st.currentActiveStage.error
          = some ScanStageErrorReasons.VALIDATION_ERROR)
  | [], k, s, hS, hlen, htrace => by
    refine ⟨by simpa using hS, rfl, by simp⟩
  | (now, v) :: tl, k, s, hS, hlen, htrace => by
    have hp := htrace (now, v) (List.mem_cons_self _ _)
    have hk1 : (1 : Int) ≤ k := by
      simp only [List.length_cons] at hlen
      push_cast at hlen
      omega
    have hstep := fail_step cfg init fresh t0 A rest k s hS now v hk1 hp.1 hp.2
    have hlen' : ((tl.length : Nat) : Int) ≤ k - 1 := by
      simp only [List.length_cons] at hlen
      push_cast at hlen ⊢
      omega
    have htl := run_fail cfg init fresh t0 A rest tl (k - 1)
      (startScanTick cfg init fresh now v s).state hstep.1 hlen'
      (fun p hp' => htrace p (List.mem_cons_of_mem _ hp'))
    have hkk : k - ((((now, v) :: tl).length : Nat) : Int)
        = k - 1 - ((tl.length : Nat) : Int) := by
      simp only [List.length_cons]
      push_cast
      ring
    refine ⟨?_, ?_, ?_⟩
    · rw [hkk]
      simpa [runTicks] using htl.1
    · simp only [runTicks, List.length_cons, List.replicate_succ]
      rw [hstep.2.1, htl.2.1]
      rfl
    · intro _ hval
      rcases tl with _ | ⟨q, tl'⟩
      · simp only [runTicks]
        exact hstep.2.2.2 (hval (now, v) (List.mem_cons_self _ _))
      · have := htl.2.2 (by simp) (fun p hp' => hval p (List.mem_cons_of_mem _ hp'))
        simpa [runTicks] using this

theorem first_fail_shape (cfg : Config) (init : LivenessState)
    (fresh : List ScanStages) (t0 : Nat) (v0 : VOutcome) (st0 : LivenessState)
    (hv : isFailOutcome v0 = true)
    (hactive : st0.currentActiveStage.stageState = ScanStageState.initial)
    (hne : st0.stages.isEmpty = false)
    (hk : 1 ≤ cfg.numberOfAttempts) :
    FailShape cfg t0 st0.currentActiveStage (st0.stages.drop 1)
      (cfg.numberOfAttempts - 1)
      (startScanTick cfg init fresh t0 v0 (initialMachine cfg st0)).state ∧
    (startScanTick cfg init fresh t0 v0 (initialMachine cfg st0)).events
      = [CallbackEvent.onScanStageError] ∧
    (startScanTick cfg init fresh t0 v0
        (initialMachine cfg st0)).state.st.currentActiveStage.error
      = some ScanStageErrorReasons.VALIDATION_ERROR := by
  rw [first_fail cfg init fresh t0 v0 st0 hv hactive hne hk]
  exact ⟨⟨rfl, rfl, rfl, rfl, rfl,
    ⟨ScanStageErrorReasons.VALIDATION_ERROR, rfl⟩, rfl⟩, rfl, rfl⟩

/-- C1: with `numberOfAttempts = N ≥ 1`, any run of `N` consecutive
failing ticks (the first a validation failure starting the session at
`t0`, the remaining ones any mix of validation failures and stage
timeouts, all within the total scan budget) keeps the session in
`scanning` after each of the `N` ticks (so it errors at no earlier tick),
exhausts the budget exactly (0 attempts left), fires exactly one
stage-error callback per failure, never lets any stage reach `completed`,
and the next tick — the budget check following the `N`-th recorded
failure — moves the session to `error NUMBER_OF_ATTEMPTS_EXCEED`, fires
the scan-error callback and stops ticking. -/
theorem C1_attempts_exceeded
    (cfg : Config) (init : LivenessState) (fresh : List ScanStages)
    (N : Nat) (st0 : LivenessState)
    (hN : 1 ≤ N)
    (hcfg : cfg.numberOfAttempts = (N : Int))
    (hactive : st0.currentActiveStage.stageState = ScanStageState.initial)
    (hne : st0.stages.isEmpty = false)
    (hnc : ∀ x ∈ st0.stages, x.stageState ≠ ScanStageState.completed)
    (t0 : Nat) (v0 : VOutcome)
    (hv0 : isFailOutcome v0 = true)
    (restInputs : List (Nat × VOutcome))
    (hlen : restInputs.length = N - 1)
    (htrace : ∀ p ∈ restInputs,
      ¬((p.1 : Int) - (t0 : Int) > (cfg.scanTimeoutTime : Int)) ∧
      (isFailOutcome p.2 = true ∨
        (p.1 : Int) - (t0 : Int) > (cfg.scanStageTimeoutTime : Int))) :
    (∀ i, i ≤ N → 1 ≤ i →
      (runTicks cfg init fresh (((t0, v0) :: restInputs).take i)
          (initialMachine cfg st0)).1.st.scanState = ScanState.scanning) ∧
    (runTicks cfg init fresh ((t0, v0) :: restInputs)
        (initialMachine cfg st0)).1.remainingAttempts = 0 ∧
    (runTicks cfg init fresh ((t0, v0) :: restInputs)
        (initialMachine cfg st0)).2
      = List.replicate N CallbackEvent.onScanStageError ∧
    (∀ i, i ≤ N →
      (∀ x ∈ (runTicks cfg init fresh (((t0, v0) :: restInputs).take i)
          (initialMachine cfg st0)).1.st.stages,
        x.stageState ≠ ScanStageState.completed) ∧
      (runTicks cfg init fresh (((t0, v0) :: restInputs).take i)
          (initialMachine cfg st0)).1.st.currentActiveStage.stageState
        ≠ ScanStageState.completed) ∧
    (∀ now v,
      (startScanTick cfg init fresh now v
          (runTicks cfg init fresh ((t0, v0) :: restInputs)
            (initialMachine cfg st0)).1).state.st.scanState
        = ScanState.error ScanErrorStates.NUMBER_OF_ATTEMPTS_EXCEED ∧
      (startScanTick cfg init fresh now v
          (runTicks cfg init fresh ((t0, v0) :: restInputs)
            (initialMachine cfg st0)).1).events = [CallbackEvent.onScanError] ∧
      (startScanTick cfg init fresh now v
          (runTicks cfg init fresh ((t0, v0) :: restInputs)
            (initialMachine cfg st0)).1).sched = Sched.noSched) ∧
    ((∀ p ∈ (t0, v0) :: restInputs, isFailOutcome p.2 = true ∧
        ¬((p.1 : Int) - (t0 : Int) > (cfg.scanStageTimeoutTime : Int))) →
      (runTicks cfg init fresh ((t0, v0) :: restInputs)
          (initialMachine cfg st0)).1.st.currentActiveStage.error
        = some ScanStageErrorReasons.VALIDATION_ERROR) := by
  have hk1 : 1 ≤ cfg.numberOfAttempts := by
    rw [hcfg]
    exact_mod_cast hN
  have hS1 := first_fail_shape cfg init fresh t0 v0 st0 hv0 hactive hne hk1
  have hS1' : FailShape cfg t0 st0.currentActiveStage (st0.stages.drop 1)
      ((N : Int) - 1)
      (startScanTick cfg init fresh t0 v0 (initialMachine cfg st0)).state :=
    hcfg ▸ hS1.1
  have prefixShape : ∀ j : Nat,
      FailShape cfg t0 st0.currentActiveStage (st0.stages.drop 1)
        ((N : Int) - 1 - ((restInputs.take j).length : Int))
        (runTicks cfg init fresh (restInputs.take j)
          (startScanTick cfg init fresh t0 v0 (initialMachine cfg st0)).state).1 := by
    intro j
    refine (run_fail cfg init fresh t0 _ _ (restInputs.take j) ((N : Int) - 1)
      _ hS1' ?_ (fun p hp => htrace p (List.take_subset _ _ hp))).1
    have h1 : (restInputs.take j).length ≤ restInputs.length :=
      List.length_take_le' _ _
    rw [hlen] at h1
    omega
  have fullRun := run_fail cfg init fresh t0 _ _ restInputs ((N : Int) - 1)
    _ hS1' (by rw [hlen]; omega)
    (fun p hp => htrace p hp)
  refine ⟨?_, ?_, ?_, ?_, ?_, ?_⟩
  · intro i hi h1i
    obtain ⟨j, rfl⟩ : ∃ j, i = j + 1 := ⟨i - 1, by omega⟩
    rw [List.take_succ_cons]
    simp only [runTicks]
    exact (prefixShape j).hstatus
  · simp only [runTicks]
    rw [fullRun.1.hrem, hlen]
    omega
  · simp only [runTicks]
    rw [hS1.2.1, fullRun.2.1, hlen]
    have : N = (N - 1) + 1 := by omega
    rw [this, List.replicate_succ]
    rfl
  · intro i hi
    rcases i with _ | j
    · simp only [List.take_zero, runTicks]
      refine ⟨hnc, ?_⟩
      show st0.currentActiveStage.stageState ≠ ScanStageState.completed
      rw [hactive]
      simp
    · rw [List.take_succ_cons]
      simp only [runTicks]
      have hF := prefixShape j
      obtain ⟨r, hact⟩ := hF.herr
      constructor
      · intro x hx
        rw [hF.hstages] at hx
        rcases List.mem_cons.mp hx with hx | hx
        · rw [hx, hact]
          simp
        · exact hnc x (List.drop_subset _ _ hx)
      · rw [hact]
        simp
  · intro now v
    have hF := fullRun.1
    have hrem0 : (runTicks cfg init fresh restInputs
        (startScanTick cfg init fresh t0 v0 (initialMachine cfg st0)).state).1.remainingAttempts
        = 0 := by
      rw [hF.hrem, hlen]
      omega
    have hne2 : (runTicks cfg init fresh restInputs
        (startScanTick cfg init fresh t0 v0 (initialMachine cfg st0)).state).1.st.stages.isEmpty
        = false := by
      rw [hF.hstages]
      rfl
    simp only [runTicks]
    rw [budget_error cfg init fresh now t0 v _ hF.hstop hF.hanchor hne2
      (Or.inr (by rw [hrem0]))]
    refine ⟨?_, rfl, rfl⟩
    simp [hrem0]
  · intro hval
    by_cases hrest : restInputs = []
    · subst hrest
      simp only [runTicks]
      exact hS1.2.2
    · simp only [runTicks]
      exact fullRun.2.2 hrest (fun p hp => hval p (List.mem_cons_of_mem _ hp))

/-! ### Concrete instances used by the witnesses and counterexamples -/

def cfgC : Config :=
  { scanStageTransitionTime := 500
    scanStageTimeoutTime := 5000
    scanTimeoutTime := 60000
    numberOfAttempts := 2 }

def stC : LivenessState :=
  { scanState := INITIAL_SCAN_STATE
    currentActiveStage := freshStage ScanStagesViews.front
    currentAttemptNumber := 1
    isScanActive := false
    isTransitioning := false
    stages := INITIAL_SCAN_STAGES }

theorem C1_attempts_exceeded_witness :
    (runTicks cfgC stC INITIAL_SCAN_STAGES
        [(1000, VOutcome.ok false), (1016, VOutcome.ok false)]
        (initialMachine cfgC stC)).1.st.scanState = ScanState.scanning ∧
    (runTicks cfgC stC INITIAL_SCAN_STAGES
        [(1000, VOutcome.ok false), (1016, VOutcome.ok false)]
        (initialMachine cfgC stC)).2
      = List.replicate 2 CallbackEvent.onScanStageError ∧
    (runTicks cfgC stC INITIAL_SCAN_STAGES
        [(1000, VOutcome.ok false), (1016, VOutcome.ok false)]
        (initialMachine cfgC stC)).1.st.currentActiveStage.error
      = some ScanStageErrorReasons.VALIDATION_ERROR ∧
    (startScanTick cfgC stC INITIAL_SCAN_STAGES 1032 (VOutcome.ok false)
        (runTicks cfgC stC INITIAL_SCAN_STAGES
          [(1000, VOutcome.ok false), (1016, VOutcome.ok false)]
          (initialMachine cfgC stC)).1).state.st.scanState
      = ScanState.error ScanErrorStates.NUMBER_OF_ATTEMPTS_EXCEED := by
  have h := C1_attempts_exceeded cfgC stC INITIAL_SCAN_STAGES 2 stC
    (by decide) (by decide) (by decide) (by decide) (by decide)
    1000 (VOutcome.ok false) (by decide)
    [(1016, VOutcome.ok false)] (by decide) (by decide)
  exact ⟨h.1 2 (by decide) (by decide), h.2.2.1,
    h.2.2.2.2.2 (by decide), (h.2.2.2.2.1 1032 (VOutcome.ok false)).1⟩

/-- C2 (amended): on every failing tick (stage timeout, or validator
false/rejected) taken while the budget is not exhausted, the budget is
decremented by one, the stage-error callback fires, the queue is not
advanced — same length, and the head is still the same stage (the active
one) — and the retry of that stage is scheduled via the next animation
frame (`requestAnimationFrame`), NOT after the configured transition
delay: the transition delay is only used when advancing after a completed
stage. -/
theorem C2_failure_tick_retry_in_place
    (cfg : Config) (init : LivenessState) (fresh : List ScanStages)
    (now t0 t1 : Nat) (v : VOutcome) (s : MachineState)
    (hstop : s.isStopScanSignal = false)
    (hanchor : s.scanStartTimeStamp = some t0)
    (hts : s.scanStageStartTimeStamp = some t1)
    (hstage : s.st.currentActiveStage.stageState = ScanStageState.scanning)
    (hne : s.st.stages.isEmpty = false)
    (hT : ¬((now : Int) - (t0 : Int) > (cfg.scanTimeoutTime : Int)))
    (hk : 1 ≤ s.remainingAttempts)
    (hfail : isFailOutcome v = true ∨
      (now : Int) - (t1 : Int) > (cfg.scanStageTimeoutTime : Int)) :
    (startScanTick cfg init fresh now v s).state.remainingAttempts
      = s.remainingAttempts - 1 ∧
    (startScanTick cfg init fresh now v s).events
      = [CallbackEvent.onScanStageError] ∧
    (startScanTick cfg init fresh now v s).state.st.stages.length
      = s.st.stages.length ∧
    (startScanTick cfg init fresh now v s).state.st.stages.head?
      = some (startScanTick cfg init fresh now v s).state.st.currentActiveStage ∧
    (startScanTick cfg init fresh now v s).state.st.currentActiveStage.stage
      = s.st.currentActiveStage.stage ∧
    (startScanTick cfg init fresh now v s).sched = Sched.raf ∧
    (startScanTick cfg init fresh now v s).sched
      ≠ Sched.transitionDelay cfg.scanStageTransitionTime := by
  obtain ⟨a, l, hsl⟩ : ∃ a l, s.st.stages = a :: l := by
    rcases hq : s.st.stages with _ | ⟨a, l⟩
    · rw [hq] at hne
      simp at hne
    · exact ⟨a, l, rfl⟩
  rw [tick_active cfg init fresh now t0 v s hstop hanchor hne hT (by omega)]
  by_cases hto : (now : Int) - (t1 : Int) > (cfg.scanStageTimeoutTime : Int)
  · rw [stage_timeout_fail cfg init fresh now t1 v s hstage hts hto]
    refine ⟨rfl, rfl, ?_, rfl, rfl, rfl, by simp⟩
    simp [hsl]
  · rcases hfail with hv | hto2
    · rw [stage_validation_fail cfg init fresh now t1 v s hv hstage hts hto]
      refine ⟨rfl, rfl, ?_, rfl, rfl, rfl, by simp⟩
      simp [hsl]
    · exact absurd hto2 hto

theorem C2_failure_tick_retry_in_place_witness :
    1 ≤ (startScanTick cfgC stC INITIAL_SCAN_STAGES 1000 (VOutcome.ok false)
        (initialMachine cfgC stC)).state.remainingAttempts ∧
    (startScanTick cfgC stC INITIAL_SCAN_STAGES 1016 (VOutcome.ok false)
        (startScanTick cfgC stC INITIAL_SCAN_STAGES 1000 (VOutcome.ok false)
          (initialMachine cfgC stC)).state).events
      = [CallbackEvent.onScanStageError] ∧
    (startScanTick cfgC stC INITIAL_SCAN_STAGES 1016 (VOutcome.ok false)
        (startScanTick cfgC stC INITIAL_SCAN_STAGES 1000 (VOutcome.ok false)
          (initialMachine cfgC stC)).state).sched = Sched.raf := by
  have h := C2_failure_tick_retry_in_place cfgC stC INITIAL_SCAN_STAGES
    1016 1000 1000 (VOutcome.ok false)
    (startScanTick cfgC stC INITIAL_SCAN_STAGES 1000 (VOutcome.ok false)
      (initialMachine cfgC stC)).state
    (by decide) (by decide) (by decide) (by decide) (by decide) (by decide)
    (by decide) (by decide)
  exact ⟨by decide, h.2.1, h.2.2.2.2.2.1⟩

/-- C2, counterexample to the claim as stated: a failing tick (budget
decremented, stage-error callback fired, queue not advanced) does NOT
schedule the retry after the configured transition delay — it schedules
the next animation frame. -/
theorem C2_transition_delay_counterexample :
    (startScanTick cfgC stC INITIAL_SCAN_STAGES 1016 (VOutcome.ok false)
        (startScanTick cfgC stC INITIAL_SCAN_STAGES 1000 (VOutcome.ok false)
          (initialMachine cfgC stC)).state).events
      = [CallbackEvent.onScanStageError] ∧
    (startScanTick cfgC stC INITIAL_SCAN_STAGES 1016 (VOutcome.ok false)
        (startScanTick cfgC stC INITIAL_SCAN_STAGES 1000 (VOutcome.ok false)
          (initialMachine cfgC stC)).state).state.remainingAttempts = 0 ∧
    (startScanTick cfgC stC INITIAL_SCAN_STAGES 1016 (VOutcome.ok false)
        (startScanTick cfgC stC INITIAL_SCAN_STAGES 1000 (VOutcome.ok false)
          (initialMachine cfgC stC)).state).sched
      ≠ Sched.transitionDelay cfgC.scanStageTransitionTime := by
  refine ⟨by decide, by decide, by decide⟩

/-- State after one validation-failure tick at t=1000 from the initial
machine: session anchored at 1000, active stage scanning, 1 attempt
left. -/
def s1F : MachineState :=
  (startScanTick cfgC stC INITIAL_SCAN_STAGES 1000 (VOutcome.ok false)
    (initialMachine cfgC stC)).state

/-- State after a second validation-failure tick at t=1016: 0 attempts
left, still scanning. -/
def s2F : MachineState :=
  (startScanTick cfgC stC INITIAL_SCAN_STAGES 1016 (VOutcome.ok false) s1F).state

/-- C4 (amended): when the wall-clock elapsed time of a running session
exceeds `scanTimeoutTime`, the next tick terminates the session, stops
ticking and fires the session-failure callback `onScanError`; the error
reason is `SCAN_TIMEOUT` when attempts remain, but when the attempt
budget is simultaneously exhausted the code reports
`NUMBER_OF_ATTEMPTS_EXCEED` instead (the budget check takes precedence
over the timeout reason). -/
theorem C4_scan_timeout
    (cfg : Config) (init : LivenessState) (fresh : List ScanStages)
    (now t0 : Nat) (v : VOutcome) (s : MachineState)
    (hstop : s.isStopScanSignal = false)
    (hanchor : s.scanStartTimeStamp = some t0)
    (hne : s.st.stages.isEmpty = false)
    (hT : (now : Int) - (t0 : Int) > (cfg.scanTimeoutTime : Int)) :
    (1 ≤ s.remainingAttempts →
      (startScanTick cfg init fresh now v s).state.st.scanState
        = ScanState.error ScanErrorStates.SCAN_TIMEOUT) ∧
    (s.remainingAttempts ≤ 0 →
      (startScanTick cfg init fresh now v s).state.st.scanState
        = ScanState.error ScanErrorStates.NUMBER_OF_ATTEMPTS_EXCEED) ∧
    (startScanTick cfg init fresh now v s).events = [CallbackEvent.onScanError] ∧
    (startScanTick cfg init fresh now v s).sched = Sched.noSched ∧
    (startScanTick cfg init fresh now v s).state.rafPending = false ∧
    (startScanTick cfg init fresh now v s).state.isStopScanSignal = true := by
  rw [budget_error cfg init fresh now t0 v s hstop hanchor hne (Or.inl hT)]
  refine ⟨?_, ?_, rfl, rfl, rfl, rfl⟩
  · intro h
    have h2 : ¬(s.remainingAttempts ≤ 0) := by omega
    simp [h2]
  · intro h
    simp [h]

theorem C4_scan_timeout_witness :
    1 ≤ s1F.remainingAttempts ∧
    ((70000 : Int) - (1000 : Int) > (cfgC.scanTimeoutTime : Int)) ∧
    (startScanTick cfgC stC INITIAL_SCAN_STAGES 70000 (VOutcome.ok false)
        s1F).state.st.scanState = ScanState.error ScanErrorStates.SCAN_TIMEOUT ∧
    (startScanTick cfgC stC INITIAL_SCAN_STAGES 70000 (VOutcome.ok false)
        s1F).events = [CallbackEvent.onScanError] ∧
    (startScanTick cfgC stC INITIAL_SCAN_STAGES 70000 (VOutcome.ok false)
        s1F).sched = Sched.noSched := by
  have h := C4_scan_timeout cfgC stC INITIAL_SCAN_STAGES 70000 1000
    (VOutcome.ok false) s1F (by decide) (by decide) (by decide) (by decide)
  exact ⟨by decide, by decide, h.1 (by decide), h.2.2.1, h.2.2.2.1⟩

/-- C4, counterexample to the claim as stated: a session whose elapsed
time exceeds the total scan budget but whose attempt budget is also
exhausted does NOT transition to `error SCAN_TIMEOUT` — the code reports
`NUMBER_OF_ATTEMPTS_EXCEED`, so the SCAN_TIMEOUT transition does not
happen "regardless of how many attempts remain". -/
theorem C4_scan_timeout_counterexample :
    s2F.remainingAttempts = 0 ∧
    s2F.scanStartTimeStamp = some 1000 ∧
    ((70000 : Int) - (1000 : Int) > (cfgC.scanTimeoutTime : Int)) ∧
    (startScanTick cfgC stC INITIAL_SCAN_STAGES 70000 (VOutcome.ok false)
        s2F).state.st.scanState
      = ScanState.error ScanErrorStates.NUMBER_OF_ATTEMPTS_EXCEED ∧
    (startScanTick cfgC stC INITIAL_SCAN_STAGES 70000 (VOutcome.ok false)
        s2F).state.st.scanState
      ≠ ScanState.error ScanErrorStates.SCAN_TIMEOUT := by
  refine ⟨by decide, by decide, by decide, by decide, by decide⟩

/-- C9: on a failing tick the publicly visible `currentAttemptNumber`
increases by 2 when the failure is a stage TIMEOUT (both the
`STAGE_ERROR` and the `DECREASE_ATTEMPTS` dispatches increment it) but
only by 1 on a VALIDATION_ERROR, while the internal `remainingAttempts`
budget decreases by exactly 1 in both cases. -/
theorem C9_attempt_number_divergence
    (cfg : Config) (init : LivenessState) (fresh : List ScanStages)
    (now t0 t1 : Nat) (v : VOutcome) (s : MachineState)
    (hstop : s.isStopScanSignal = false)
    (hanchor : s.scanStartTimeStamp = some t0)
    (hts : s.scanStageStartTimeStamp = some t1)
    (hstage : s.st.currentActiveStage.stageState = ScanStageState.scanning)
    (hne : s.st.stages.isEmpty = false)
    (hT : ¬((now : Int) - (t0 : Int) > (cfg.scanTimeoutTime : Int)))
    (hk : 1 ≤ s.remainingAttempts) :
    ((now : Int) - (t1 : Int) > (cfg.scanStageTimeoutTime : Int) →
      (startScanTick cfg init fresh now v s).state.st.currentAttemptNumber
        = s.st.currentAttemptNumber + 2 ∧
      (startScanTick cfg init fresh now v s).state.remainingAttempts
        = s.remainingAttempts - 1 ∧
      (startScanTick cfg init fresh now v s).state.st.currentActiveStage.error
        = some ScanStageErrorReasons.TIMEOUT) ∧
    (¬((now : Int) - (t1 : Int) > (cfg.scanStageTimeoutTime : Int)) →
      isFailOutcome v = true →
      (startScanTick cfg init fresh now v s).state.st.currentAttemptNumber
        = s.st.currentAttemptNumber + 1 ∧
      (startScanTick cfg init fresh now v s).state.remainingAttempts
        = s.remainingAttempts - 1 ∧
      (startScanTick cfg init fresh now v s).state.st.currentActiveStage.error
        = some ScanStageErrorReasons.VALIDATION_ERROR) := by
  rw [tick_active cfg init fresh now t0 v s hstop hanchor hne hT (by omega)]
  constructor
  · intro hto
    rw [stage_timeout_fail cfg init fresh now t1 v s hstage hts hto]
    exact ⟨rfl, rfl, rfl⟩
  · intro hto hv
    rw [stage_validation_fail cfg init fresh now t1 v s hv hstage hts hto]
    exact ⟨rfl, rfl, rfl⟩

theorem C9_attempt_number_divergence_witness :
    s1F.st.currentAttemptNumber = 2 ∧
    s1F.remainingAttempts = 1 ∧
    (startScanTick cfgC stC INITIAL_SCAN_STAGES 7000 (VOutcome.ok false)
        s1F).state.st.currentAttemptNumber = 4 ∧
    (startScanTick cfgC stC INITIAL_SCAN_STAGES 7000 (VOutcome.ok false)
        s1F).state.remainingAttempts = 0 ∧
    (startScanTick cfgC stC INITIAL_SCAN_STAGES 7000 (VOutcome.ok false)
        s1F).state.st.currentActiveStage.error
      = some ScanStageErrorReasons.TIMEOUT ∧
    (startScanTick cfgC stC INITIAL_SCAN_STAGES 1016 (VOutcome.ok false)
        s1F).state.st.currentAttemptNumber = 3 := by
  have h := C9_attempt_number_divergence cfgC stC INITIAL_SCAN_STAGES
    7000 1000 1000 (VOutcome.ok false) s1F
    (by decide) (by decide) (by decide) (by decide) (by decide) (by decide)
    (by decide)
  have h2 := C9_attempt_number_divergence cfgC stC INITIAL_SCAN_STAGES
    1016 1000 1000 (VOutcome.ok false) s1F
    (by decide) (by decide) (by decide) (by decide) (by decide) (by decide)
    (by decide)
  obtain ⟨ha, hb, hc⟩ := h.1 (by decide)
  obtain ⟨hd, he, hf⟩ := h2.2 (by decide) (by decide)
  refine ⟨by decide, by decide, ?_, ?_, hc, ?_⟩
  · rw [ha]
    decide
  · rw [hb]
    decide
  · rw [hd]
    decide

/-- C7: a tick in which the last remaining stage is validated
successfully moves the session to `completed` (terminal: nothing further
is scheduled, the animation frame is cancelled and the stop signal set)
and fires `onScanCompleted` exactly once, after the stage-completed
callback. -/
theorem C7_last_stage_completes_session
    (cfg : Config) (init : LivenessState) (fresh : List ScanStages)
    (now t0 t1 : Nat) (s : MachineState) (h1 : ScanStages)
    (hstop : s.isStopScanSignal = false)
    (hanchor : s.scanStartTimeStamp = some t0)
    (hts : s.scanStageStartTimeStamp = some t1)
    (hstage : s.st.currentActiveStage.stageState = ScanStageState.scanning)
    (hstages : s.st.stages = [h1])
    (hT : ¬((now : Int) - (t0 : Int) > (cfg.scanTimeoutTime : Int)))
    (hk : 1 ≤ s.remainingAttempts)
    (hto : ¬((now : Int) - (t1 : Int) > (cfg.scanStageTimeoutTime : Int))) :
    (startScanTick cfg init fresh now (VOutcome.ok true) s).state.st.scanState
      = ScanState.completed ∧
    (startScanTick cfg init fresh now (VOutcome.ok true) s).events
      = [CallbackEvent.onScanStageCompleted, CallbackEvent.onScanCompleted] ∧
    ((startScanTick cfg init fresh now (VOutcome.ok true) s).events.count
      CallbackEvent.onScanCompleted) = 1 ∧
    (startScanTick cfg init fresh now (VOutcome.ok true) s).sched = Sched.noSched ∧
    (startScanTick cfg init fresh now (VOutcome.ok true) s).state.rafPending = false ∧
    (startScanTick cfg init fresh now (VOutcome.ok true) s).state.isStopScanSignal
      = true := by
  have hne : s.st.stages.isEmpty = false := by
    rw [hstages]
    rfl
  rw [tick_active cfg init fresh now t0 (VOutcome.ok true) s hstop hanchor hne hT
    (by omega)]
  rw [stage_success_last cfg init fresh now t1 s h1 hstage hts hto hstages]
  exact ⟨rfl, rfl, rfl, rfl, rfl, rfl⟩

/-- 1-stage variant of the initial reducer state, for the C7 witness. -/
def stC1 : LivenessState :=
  { stC with stages := [freshStage ScanStagesViews.front] }

theorem C7_last_stage_completes_session_witness :
    (startScanTick cfgC stC1 INITIAL_SCAN_STAGES 1016 (VOutcome.ok true)
        (startScanTick cfgC stC1 INITIAL_SCAN_STAGES 1000 (VOutcome.ok false)
          (initialMachine cfgC stC1)).state).state.st.scanState
      = ScanState.completed ∧
    (startScanTick cfgC stC1 INITIAL_SCAN_STAGES 1016 (VOutcome.ok true)
        (startScanTick cfgC stC1 INITIAL_SCAN_STAGES 1000 (VOutcome.ok false)
          (initialMachine cfgC stC1)).state).events
      = [CallbackEvent.onScanStageCompleted, CallbackEvent.onScanCompleted] ∧
    (startScanTick cfgC stC1 INITIAL_SCAN_STAGES 1016 (VOutcome.ok true)
        (startScanTick cfgC stC1 INITIAL_SCAN_STAGES 1000 (VOutcome.ok false)
          (initialMachine cfgC stC1)).state).sched = Sched.noSched := by
  have h := C7_last_stage_completes_session cfgC stC1 INITIAL_SCAN_STAGES
    1016 1000 1000
    (startScanTick cfgC stC1 INITIAL_SCAN_STAGES 1000 (VOutcome.ok false)
      (initialMachine cfgC stC1)).state
    { freshStage ScanStagesViews.front with
      stageState := ScanStageState.scanning
      isError := some true
      error := some ScanStageErrorReasons.VALIDATION_ERROR }
    (by decide) (by decide) (by decide) (by decide) (by decide) (by decide)
    (by decide) (by decide)
  exact ⟨h.1, h.2.1, h.2.2.2.1⟩

/-- C10: every call to `stopScan`, from any session state whatsoever
(including `idle`, with no error of any kind), invokes the `onScanError`
callback — and nothing else. -/
theorem C10_stopScan_always_fires_onScanError
    (cfg : Config) (init : LivenessState) (fresh : List ScanStages)
    (s : MachineState) :
    (stopScan cfg init fresh s).2 = [CallbackEvent.onScanError] := rfl

theorem stage_success_anchor_cleared (cfg : Config) (init : LivenessState)
    (fresh : List ScanStages) (now t1 : Nat) (s : MachineState)
    (hstage : s.st.currentActiveStage.stageState = ScanStageState.scanning)
    (hts : s.scanStageStartTimeStamp = some t1)
    (hto : ¬((now : Int) - (t1 : Int) > (cfg.scanStageTimeoutTime : Int))) :
    (stagePhase cfg init fresh now (VOutcome.ok true) s).state.scanStageStartTimeStamp
      = none := by
  unfold stagePhase
  simp [hstage, hts, hto, move_clears_stage_anchor]

/-- C6 (amended): the stage anchor `scanStageStartTimeStamp` is set
(to the tick's time) exactly when the active stage enters `scanning`
from `initial`, and cleared when the stage completes; but on a failing
tick (the retry path) the anchor is RETAINED unchanged — it is neither
cleared nor re-anchored, so a retried stage's elapsed time keeps being
measured from the stage's original entry, not from the retry. -/
theorem C6_stage_anchor_behaviour
    (cfg : Config) (init : LivenessState) (fresh : List ScanStages)
    (now t0 t1 : Nat) (s : MachineState)
    (hstop : s.isStopScanSignal = false)
    (hanchor : s.scanStartTimeStamp = some t0)
    (hne : s.st.stages.isEmpty = false)
    (hT : ¬((now : Int) - (t0 : Int) > (cfg.scanTimeoutTime : Int)))
    (hk : 1 ≤ s.remainingAttempts) :
    (∀ v, isFailOutcome v = true →
      s.st.currentActiveStage.stageState = ScanStageState.initial →
      (startScanTick cfg init fresh now v s).state.scanStageStartTimeStamp
        = some now) ∧
    (s.st.currentActiveStage.stageState = ScanStageState.scanning →
      s.scanStageStartTimeStamp = some t1 →
      ¬((now : Int) - (t1 : Int) > (cfg.scanStageTimeoutTime : Int)) →
      (startScanTick cfg init fresh now (VOutcome.ok true)
          s).state.scanStageStartTimeStamp = none) ∧
    (∀ v, s.st.currentActiveStage.stageState = ScanStageState.scanning →
      s.scanStageStartTimeStamp = some t1 →
      (isFailOutcome v = true ∨
        (now : Int) - (t1 : Int) > (cfg.scanStageTimeoutTime : Int)) →
      (startScanTick cfg init fresh now v s).state.scanStageStartTimeStamp
        = some t1) := by
  refine ⟨?_, ?_, ?_⟩
  · intro v hv hstage
    rw [tick_active cfg init fresh now t0 v s hstop hanchor hne hT (by omega)]
    rw [stage_enter_validation_fail cfg init fresh now v s hv hstage]
  · intro hstage hts1 hto
    rw [tick_active cfg init fresh now t0 (VOutcome.ok true) s hstop hanchor hne
      hT (by omega)]
    exact stage_success_anchor_cleared cfg init fresh now t1 s hstage hts1 hto
  · intro v hstage hts1 hfail
    rw [tick_active cfg init fresh now t0 v s hstop hanchor hne hT (by omega)]
    by_cases hto : (now : Int) - (t1 : Int) > (cfg.scanStageTimeoutTime : Int)
    · rw [stage_timeout_fail cfg init fresh now t1 v s hstage hts1 hto]
      exact hts1
    · rcases hfail with hv | hto2
      · rw [stage_validation_fail cfg init fresh now t1 v s hv hstage hts1 hto]
        exact hts1
      · exact absurd hto2 hto

theorem C6_stage_anchor_behaviour_witness :
    s1F.scanStageStartTimeStamp = some 1000 ∧
    (startScanTick cfgC stC INITIAL_SCAN_STAGES 1016 (VOutcome.ok false)
        s1F).state.scanStageStartTimeStamp = some 1000 := by
  have h := C6_stage_anchor_behaviour cfgC stC INITIAL_SCAN_STAGES
    1016 1000 1000 s1F (by decide) (by decide) (by decide) (by decide) (by decide)
  exact ⟨by decide, h.2.2 (VOutcome.ok false) (by decide) (by decide)
    (Or.inl (by decide))⟩

/-- C6, counterexample to the claim as stated: on a retry tick (a
validation failure is recorded and the same stage re-enters the retry
loop) the stage anchor is NOT cleared and NOT reset to the retry time —
it still holds the stage's original entry time. -/
theorem C6_stage_anchor_counterexample :
    s1F.scanStageStartTimeStamp = some 1000 ∧
    (startScanTick cfgC stC INITIAL_SCAN_STAGES 1016 (VOutcome.ok false)
        s1F).events = [CallbackEvent.onScanStageError] ∧
    (startScanTick cfgC stC INITIAL_SCAN_STAGES 1016 (VOutcome.ok false)
        s1F).state.scanStageStartTimeStamp = some 1000 ∧
    (startScanTick cfgC stC INITIAL_SCAN_STAGES 1016 (VOutcome.ok false)
        s1F).state.scanStageStartTimeStamp ≠ none ∧
    (startScanTick cfgC stC INITIAL_SCAN_STAGES 1016 (VOutcome.ok false)
        s1F).state.scanStageStartTimeStamp ≠ some 1016 := by
  refine ⟨by decide, by decide, by decide, by decide, by decide⟩
theorem move_remaining (cfg : Config) (init : LivenessState)
    (fresh : List ScanStages) (s : MachineState) :
    (moveToNextStage cfg init fresh s).state.remainingAttempts
      = s.remainingAttempts := by
  by_cases h : s.st.stages.length ≤ 1 <;>
    simp [moveToNextStage, cleanUp, scheduleScan, h]

theorem stagePhase_remaining (cfg : Config) (init : LivenessState)
    (fresh : List ScanStages) (now : Nat) (v : VOutcome) (s : MachineState) :
    (stagePhase cfg init fresh now v s).state.remainingAttempts
      = s.remainingAttempts ∨
    (stagePhase cfg init fresh now v s).state.remainingAttempts
      = s.remainingAttempts - 1 := by
  have hto0 : ¬((cfg.scanStageTimeoutTime : Int) < 0) := by omega
  by_cases h1 : s.st.currentActiveStage.stageState = ScanStageState.initial
  · rcases v with b | _
    · cases b
      · simp [stagePhase, decrementAttempts, h1, hto0]
      · simp [stagePhase, decrementAttempts, h1, hto0, move_remaining]
    · simp [stagePhase, decrementAttempts, h1, hto0]
  · by_cases h2 : s.st.currentActiveStage.stageState = ScanStageState.scanning
    · by_cases h3 : s.scanStageStartTimeStamp = none
      · rcases v with b | _
        · cases b
          · simp [stagePhase, decrementAttempts, h1, h2, h3, hto0]
          · simp [stagePhase, decrementAttempts, h1, h2, h3, hto0, move_remaining]
        · simp [stagePhase, decrementAttempts, h1, h2, h3, hto0]
      · rcases h3' : s.scanStageStartTimeStamp with _ | t1
        · exact absurd h3' h3
        · by_cases h4 : (now : Int) - (t1 : Int) > (cfg.scanStageTimeoutTime : Int)
          · simp [stagePhase, decrementAttempts, h1, h2, h3', h4]
          · rcases v with b | _
            · cases b
              · simp [stagePhase, decrementAttempts, h1, h2, h3', h4]
              · simp [stagePhase, decrementAttempts, h1, h2, h3', h4, move_remaining]
            · simp [stagePhase, decrementAttempts, h1, h2, h3', h4]
    · simp [stagePhase, h1, h2]

theorem tick_remaining_cases (cfg : Config) (init : LivenessState)
    (fresh : List ScanStages) (now : Nat) (v : VOutcome) (s : MachineState) :
    (startScanTick cfg init fresh now v s).state.remainingAttempts
      = s.remainingAttempts ∨
    (¬(s.remainingAttempts ≤ 0) ∧
      (startScanTick cfg init fresh now v s).state.remainingAttempts
        = s.remainingAttempts - 1) := by
  by_cases h0 : s.isStopScanSignal = true
  · left
    simp [startScanTick, h0]
  · have h0' : s.isStopScanSignal = false := by simpa using h0
    rcases h1 : s.scanStartTimeStamp with _ | t0
    · by_cases h2 : s.st.stages.isEmpty = true
      · left
        simp [startScanTick, scanReducer, h0', h1, h2, cleanUp]
      · have h2' : s.st.stages.isEmpty = false := by simpa using h2
        by_cases h3 : s.remainingAttempts ≤ 0
        · left
          simp [startScanTick, budgetCheck, scanReducer, h0', h1, h2', h3, cleanUp]
        · by_cases h4 : ((cfg.scanTimeoutTime : Int) < 0)
          · left
            simp [startScanTick, budgetCheck, scanReducer, h0', h1, h2', h4, cleanUp]
          · have hsp := stagePhase_remaining cfg init fresh now v
              { s with
                scanStartTimeStamp := some now
                st := scanReducer init fresh s.st ScanAction.START_SCAN }
            rcases hsp with h | h
            · left
              simpa [startScanTick, budgetCheck, scanReducer, h0', h1, h2', h3, h4] using h
            · right
              refine ⟨h3, ?_⟩
              simpa [startScanTick, budgetCheck, scanReducer, h0', h1, h2', h3, h4] using h
    · by_cases h2 : s.st.stages.isEmpty = true
      · left
        simp [startScanTick, scanReducer, h0', h1, h2, cleanUp]
      · have h2' : s.st.stages.isEmpty = false := by simpa using h2
        by_cases h3 : s.remainingAttempts ≤ 0
        · left
          simp [startScanTick, budgetCheck, scanReducer, h0', h1, h2', h3, cleanUp]
        · by_cases h4 : (now : Int) - (t0 : Int) > (cfg.scanTimeoutTime : Int)
          · left
            simp [startScanTick, budgetCheck, scanReducer, h0', h1, h2', h4, cleanUp]
          · have hsp := stagePhase_remaining cfg init fresh now v s
            rcases hsp with h | h
            · left
              simpa [startScanTick, budgetCheck, h0', h1, h2', h3, h4] using h
            · right
              refine ⟨h3, ?_⟩
              simpa [startScanTick, budgetCheck, h0', h1, h2', h3, h4] using h

theorem run_nonneg (cfg : Config) (init : LivenessState)
    (fresh : List ScanStages) :
    ∀ (inputs : List (Nat × VOutcome)) (s : MachineState),
      0 ≤ s.remainingAttempts →
      0 ≤ (runTicks cfg init fresh inputs s).1.remainingAttempts
  | [], s, h => h
  | (now, v) :: tl, s, h => by
    have hc := tick_remaining_cases cfg init fresh now v s
    have h' : 0 ≤ (startScanTick cfg init fresh now v s).state.remainingAttempts := by
      rcases hc with h1 | ⟨h2, h3⟩ <;> omega
    simpa [runTicks] using
      run_nonneg cfg init fresh tl (startScanTick cfg init fresh now v s).state h'

/-- C5 (amended): the code's budget decrement (`remainingAttempts.current--`)
is a plain decrement with NO saturation — applied at 0 it yields -1 — but
in every reachable state the counter never goes negative and never
increases during a session, because each tick checks `remaining ≤ 0` (and
errors out) before any decrement: a single tick either leaves the counter
unchanged or, only when it was positive, decrements it by one, so any run
from the initial machine with a non-negative configured budget keeps the
counter non-negative. -/
theorem C5_budget_nonneg_monotone
    (cfg : Config) (init : LivenessState) (fresh : List ScanStages)
    (now : Nat) (v : VOutcome) (s : MachineState)
    (h : 0 ≤ s.remainingAttempts) :
    0 ≤ (startScanTick cfg init fresh now v s).state.remainingAttempts ∧
    (startScanTick cfg init fresh now v s).state.remainingAttempts
      ≤ s.remainingAttempts ∧
    (∀ (inputs : List (Nat × VOutcome)) (st0 : LivenessState),
      0 ≤ cfg.numberOfAttempts →
      0 ≤ (runTicks cfg init fresh inputs (initialMachine cfg st0)).1.remainingAttempts) := by
  have hc := tick_remaining_cases cfg init fresh now v s
  refine ⟨?_, ?_, ?_⟩
  · rcases hc with h1 | ⟨h2, h3⟩ <;> omega
  · rcases hc with h1 | ⟨h2, h3⟩ <;> omega
  · intro inputs st0 hcfg
    exact run_nonneg cfg init fresh inputs (initialMachine cfg st0) hcfg

theorem C5_budget_nonneg_monotone_witness :
    0 ≤ (initialMachine cfgC stC).remainingAttempts ∧
    0 ≤ s1F.remainingAttempts ∧
    s1F.remainingAttempts ≤ (initialMachine cfgC stC).remainingAttempts := by
  have h := C5_budget_nonneg_monotone cfgC stC INITIAL_SCAN_STAGES 1000
    (VOutcome.ok false) (initialMachine cfgC stC) (by decide)
  exact ⟨by decide, h.1, h.2.1⟩

/-- C5, counterexample to the claim as stated: the decrement operation
itself does NOT saturate at 0 — applied to a state with 0 remaining
attempts it produces -1, a negative value. -/
theorem C5_saturation_counterexample :
    (decrementAttempts
      (initialMachine { cfgC with numberOfAttempts := 0 } stC)).remainingAttempts
      = -1 ∧
    (decrementAttempts
      (initialMachine { cfgC with numberOfAttempts := 0 } stC)).remainingAttempts
      < 0 := by
  refine ⟨by decide, by decide⟩

/-- State right after the first stage completes at t=1000: the session is
between stages, `scheduleScan`'s transition timer is pending. -/
def s1T : MachineState :=
  (startScanTick cfgC stC INITIAL_SCAN_STAGES 1000 (VOutcome.ok true)
    (initialMachine cfgC stC)).state

/-- State after calling `stopScan` while the transition timer is pending. -/
def sStop : MachineState := (stopScan cfgC stC INITIAL_SCAN_STAGES s1T).1

/-- C3 (code bug): `stopScan` does reset the session — back to `idle`,
attempt counter and both time anchors reset, animation frame cancelled —
but it does NOT cancel a pending `scheduleScan` transition timer (the
`clearTimeout` closure returned by `scheduleScan` is discarded by
`moveToNextStage`, and `cleanUp` only touches the animation frame).  The
still-pending timer later fires, RESETS the stop signal and calls
`startScan`: the supposedly stopped session transitions from `idle` back
to `scanning` and keeps scheduling ticks. -/
theorem C3_stop_leaves_transition_timer_pending :
    sStop.st.scanState = ScanState.idle ∧
    sStop.st.currentAttemptNumber = 1 ∧
    sStop.scanStartTimeStamp = none ∧
    sStop.scanStageStartTimeStamp = none ∧
    sStop.remainingAttempts = cfgC.numberOfAttempts ∧
    sStop.rafPending = false ∧
    sStop.isStopScanSignal = true ∧
    s1T.transitionTimerPending = true ∧
    sStop.transitionTimerPending = true ∧
    (transitionTimerFire cfgC stC INITIAL_SCAN_STAGES 1600 (VOutcome.ok false)
        sStop).state.isStopScanSignal = false ∧
    (transitionTimerFire cfgC stC INITIAL_SCAN_STAGES 1600 (VOutcome.ok false)
        sStop).state.st.scanState = ScanState.scanning ∧
    (transitionTimerFire cfgC stC INITIAL_SCAN_STAGES 1600 (VOutcome.ok false)
        sStop).sched = Sched.raf := by
  refine ⟨by decide, by decide, by decide, by decide, by decide, by decide,
    by decide, by decide, by decide, by decide, by decide, by decide⟩
